import Mathlib

/-!
Verification of the BiliDownloader authenticated-session and resolution
pipeline: a shallow embedding of src/session.py, src/login.py and
src/utils.py, with theorems settling the specification claims about the
resilient three-tier fetch, the credential store, the QR login state
machine and the video resolver.

Network effects are embedded by passing an explicit environment that
records the outcome of each outbound request (the scripted responses the
server would give); the Python functions then become pure Lean functions
of that environment, returning Except values in place of raised
exceptions, together with traces of the requests they issued.
-/

namespace BiliDown

/-- Python exception values as they occur in the repository. The
constructor family mirrors the classes the code raises or catches:
sslError is requests.exceptions.SSLError, maxRetryError is
urllib3.exceptions.MaxRetryError, httpError is
requests.exceptions.HTTPError (what Response.raise_for_status raises),
requestError stands for any other requests.exceptions.RequestException,
jsonDecodeError is json.JSONDecodeError, and the rest are the builtin
Python exceptions the code can raise. -/
inductive PyExc where
  | sslError (msg : String)
  | maxRetryError (msg : String)
  | httpError (msg : String)
  | requestError (msg : String)
  | runtimeError (msg : String)
  | timeoutError (msg : String)
  | keyError (msg : String)
  | typeError (msg : String)
  | valueError (msg : String)
  | indexError (msg : String)
  | jsonDecodeError (msg : String)
  | attributeError (msg : String)
  deriving DecidableEq, Repr

/-- The str(e) text interpolated into f-strings by the source. -/
def excMsg : PyExc → String
  | .sslError m => m
  | .maxRetryError m => m
  | .httpError m => m
  | .requestError m => m
  | .runtimeError m => m
  | .timeoutError m => m
  | .keyError m => m
  | .typeError m => m
  | .valueError m => m
  | .indexError m => m
  | .jsonDecodeError m => m
  | .attributeError m => m

/-- Membership in the requests.exceptions.RequestException class
hierarchy: SSLError and HTTPError are subclasses of RequestException;
MaxRetryError (urllib3), JSONDecodeError (a ValueError) and the builtin
exceptions are not. -/
def isRequestException : PyExc → Bool
  | .sslError _ => true
  | .httpError _ => true
  | .requestError _ => true
  | _ => false

/-- The except clause of tiers 1 and 2 of _safe_get in src/utils.py:
except (SSLError, MaxRetryError, RequestException). -/
def tier12Catches (e : PyExc) : Bool :=
  match e with
  | .maxRetryError _ => true
  | _ => isRequestException e

/-- An HTTP response: its status code and its body text. -/
structure Resp where
  status : Nat
  body : String
  deriving DecidableEq, Repr

/-- Response.raise_for_status from requests: raises HTTPError exactly
when the status code is in the 4xx or 5xx range, otherwise returns the
response unchanged. -/
def raise_for_status (r : Resp) : Except PyExc Resp :=
  if 400 ≤ r.status ∧ r.status < 600 then
    .error (.httpError ("HTTP Error " ++ toString r.status))
  else .ok r

/-- One tier of _safe_get: the GET itself (whose outcome the environment
scripts) followed by resp.raise_for_status(). -/
def tierTry (g : Except PyExc Resp) : Except PyExc Resp :=
  match g with
  | .error e => .error e
  | .ok r => raise_for_status r

/-- The environment of one _safe_get call: the transport-level outcome
each of the three tier GETs would have if issued (tier 1 session.get,
tier 2 session.get verify=False, tier 3 plain requests.get on a fresh
session without the retry adapter). -/
structure SafeGetEnv where
  tier1 : Except PyExc Resp
  tier2 : Except PyExc Resp
  tier3 : Except PyExc Resp

/-- The aggregate error message built by _safe_get when all three tiers
fail, from src/utils.py lines 157-162. -/
def aggregateMsg (e1 e2 e3 : PyExc) : String :=
  "三次尝试均失败:\n1) 普通 session.get → " ++ excMsg e1 ++
  "\n2) session.get verify=False → " ++ excMsg e2 ++
  "\n3) plain requests.get → " ++ excMsg e3

/-- _safe_get from src/utils.py lines 123-162. Returns the outcome of
the call together with the list of tiers actually attempted. Tier 1 and
tier 2 each run a GET plus raise_for_status inside
try/except (SSLError, MaxRetryError, RequestException); an exception of
one of those classes falls through to the next tier, any other exception
propagates. Tier 3 is wrapped in except Exception, so any tier-3 failure
is wrapped with the two earlier failures into one RuntimeError. -/
def _safe_get (env : SafeGetEnv) : Except PyExc Resp × List Nat :=
  match tierTry env.tier1 with
  | .ok r => (.ok r, [1])
  | .error e1 =>
    if tier12Catches e1 then
      match tierTry env.tier2 with
      | .ok r => (.ok r, [1, 2])
      | .error e2 =>
        if tier12Catches e2 then
          match tierTry env.tier3 with
          | .ok r => (.ok r, [1, 2, 3])
          | .error e3 => (.error (.runtimeError (aggregateMsg e1 e2 e3)), [1, 2, 3])
        else (.error e2, [1, 2])
    else (.error e1, [1])

/-- p occurs as a contiguous substring of s. -/
def IsSubstr (p s : String) : Prop := ∃ a b : String, s = a ++ p ++ b

/-- JSON values, as json.load / Response.json() produce them. -/
inductive JVal where
  | jnull
  | jbool (b : Bool)
  | jnum (n : Int)
  | jstr (s : String)
  | jarr (elems : List JVal)
  | jobj (fields : List (String × JVal))

/-- A file system together with the JSON decoder: for each path, none
models FileNotFoundError on open, some c models a present file whose
json.load outcome is c (ok for well-formed JSON, error for a
JSONDecodeError or other read failure). -/
def FileSys : Type := String → Option (Except PyExc JVal)

/-- parse_login_info from src/login.py lines 121-127: open the file and
json.load it, catching only FileNotFoundError (returning None); any
error from a present file propagates. -/
def parse_login_info (fs : FileSys) (path : String) : Except PyExc (Option JVal) :=
  match fs path with
  | none => .ok none
  | some (.error e) => .error e
  | some (.ok v) => .ok (some v)

/-- A well-formed credential set: for each of the three credential
cookies, its expiry instant (none models a null "expires", a
session-scoped cookie with no fixed expiry). Timestamps are modelled as
naturals with the datetime order. -/
structure CredentialSet where
  sessdata_expiry : Option Nat
  bili_jct_expiry : Option Nat
  dede_user_id_expiry : Option Nat
  deriving DecidableEq, Repr

/-- The three expiry fields in the order the code iterates the names
("SESSDATA", "bili_jct", "DedeUserID"). -/
def credExpiries (cs : CredentialSet) : List (Option Nat) :=
  [cs.sessdata_expiry, cs.bili_jct_expiry, cs.dede_user_id_expiry]

/-- The usability check of src/login.py lines 148-152 on a well-formed
credential set: all(expiry > now for each name if expiry is not None) —
a generator filtered to the non-null expiries, so a null expiry
contributes nothing (equivalently, counts as true). -/
def isUsable (cs : CredentialSet) (now : Nat) : Bool :=
  (credExpiries cs).all fun o =>
    match o with
    | none => true
    | some t => decide (now < t)

/-- The states of the QR login state machine as the spec names them; the
code realizes them implicitly through the poll status codes
(86101 not yet scanned, 86090 scanned pending confirmation, 86038
expired, 0 confirmed). -/
inductive LState where
  | AWAITING_SCAN
  | SCANNED_PENDING_CONFIRM
  | EXPIRED
  | CONFIRMED
  deriving DecidableEq, Repr

/-- One scripted iteration of the poll loop of poll_login: the JSON the
poll endpoint returns (top-level code, data.code status and data.url),
whether the confirmation GET on data.url would succeed when issued, and
the value of int(time.time() - start) at this iteration. -/
structure PollStep where
  code : Int
  status : Int
  url : String
  confirmOk : Bool
  elapsed : Nat
  deriving DecidableEq, Repr

/-- How one poll_login call ends: ok true (returned True, logged in),
ok false (returned False, QR code expired), err (raised), or
outOfScript when the scripted responses run out while the loop would
keep polling. -/
inductive PollResult where
  | ok (b : Bool)
  | err (e : PyExc)
  | outOfScript
  deriving DecidableEq, Repr

/-- A poll_login run: its result, the machine states traversed (one per
handled poll response), and the URLs it fetched beyond the poll endpoint
(the confirmation URL on status 0). -/
structure PollRun where
  result : PollResult
  states : List LState
  fetched : List String
  deriving DecidableEq, Repr

/-- poll_login from src/login.py lines 36-81, over the scripted list of
poll responses. Per iteration: a non-zero top-level code raises
RuntimeError; status 86101 and 86090 print and fall through to the
timeout check (raising TimeoutError when elapsed ≥ timeout) and then the
next iteration; 86038 returns False; 0 fetches the confirmation URL
(a network failure there propagates) and returns True; any other status
raises RuntimeError. The timeout check is reached only on the 86101 and
86090 paths, after the status dispatch. -/
def poll_login (timeout : Nat) : List PollStep → PollRun
  | [] => { result := .outOfScript, states := [], fetched := [] }
  | s :: rest =>
    if s.code ≠ 0 then
      { result := .err (.runtimeError "轮询接口异常"), states := [], fetched := [] }
    else if s.status = 86101 then
      if timeout ≤ s.elapsed then
        { result := .err (.timeoutError "扫码登录超时"), states := [.AWAITING_SCAN], fetched := [] }
      else
        let r := poll_login timeout rest
        { result := r.result, states := .AWAITING_SCAN :: r.states, fetched := r.fetched }
    else if s.status = 86090 then
      if timeout ≤ s.elapsed then
        { result := .err (.timeoutError "扫码登录超时"), states := [.SCANNED_PENDING_CONFIRM], fetched := [] }
      else
        let r := poll_login timeout rest
        { result := r.result, states := .SCANNED_PENDING_CONFIRM :: r.states, fetched := r.fetched }
    else if s.status = 86038 then
      { result := .ok false, states := [.EXPIRED], fetched := [] }
    else if s.status = 0 then
      if s.confirmOk then
        { result := .ok true, states := [.CONFIRMED], fetched := [s.url] }
      else
        { result := .err (.requestError s.url), states := [], fetched := [s.url] }
    else
      { result := .err (.runtimeError "未知扫码状态"), states := [], fetched := [] }

/-- One QR session the generate endpoint would grant: its qrcode_key and
url, and the scripted poll responses for that key. -/
structure QRAttempt where
  key : String
  url : String
  script : List PollStep
  deriving DecidableEq, Repr

/-- How the top-level while-True driver of login (src/login.py lines
166-177) ends: success (poll_login returned True and the loop broke),
aborted (a non-timeout exception reached the except-Exception branch,
which exits the process), or outOfScript when the scripted sessions run
out while the loop would keep requesting new QR codes. -/
inductive DriverResult where
  | success (key : String)
  | aborted (e : PyExc)
  | outOfScript
  deriving DecidableEq, Repr

/-- Whether an exception is caught by the except TimeoutError clause. -/
def isTimeoutErr : PyExc → Bool
  | .timeoutError _ => true
  | _ => false

/-- The while-True QR driver loop of login, src/login.py lines 166-177:
request a QR session, poll it; on True break with success, on False
(expired) loop and request a fresh session, on TimeoutError print and
loop likewise, on any other exception exit. Returns the outcome and the
trace of (qrcode_key, poll outcome) pairs, one per session polled, in
order. -/
def qr_driver (timeout : Nat) : List QRAttempt → DriverResult × List (String × PollResult)
  | [] => (.outOfScript, [])
  | a :: rest =>
    match (poll_login timeout a.script).result with
    | .ok true => (.success a.key, [(a.key, .ok true)])
    | .ok false =>
      let d := qr_driver timeout rest
      (d.1, (a.key, .ok false) :: d.2)
    | .err e =>
      if isTimeoutErr e then
        let d := qr_driver timeout rest
        (d.1, (a.key, .err e) :: d.2)
      else (.aborted e, [(a.key, .err e)])
    | .outOfScript => (.outOfScript, [(a.key, .outOfScript)])

/-- A poll script that reaches status 86038 (expired) before any 0:
every earlier response has top-level code 0, a non-terminal status
(86101 or 86090) and an elapsed time below the timeout, and the 86038
response itself has top-level code 0. -/
def reachesExpiry (timeout : Nat) : List PollStep → Prop
  | [] => False
  | s :: rest => s.code = 0 ∧
      (s.status = 86038 ∨
        ((s.status = 86101 ∨ s.status = 86090) ∧ s.elapsed < timeout ∧
          reachesExpiry timeout rest))

/-- Read exactly n decimal digits from the character list, accumulating
their value onto acc; none if a non-digit or the end is hit first. -/
def readFixed : Nat → Nat → List Char → Option (Nat × List Char)
  | 0, acc, cs => some (acc, cs)
  | _ + 1, _, [] => none
  | k + 1, acc, c :: cs =>
    if c.isDigit then readFixed k (acc * 10 + (c.toNat - 48)) cs else none

/-- Consume one expected character. -/
def expectChar (c : Char) : List Char → Option (List Char)
  | [] => none
  | x :: xs => if x = c then some xs else none

/-- An order-preserving encoding of a calendar instant as a natural
number (the exact calendar arithmetic is irrelevant: only the strict
order between instants is used by the code). -/
def encodeDT (y mo d h mi s : Nat) : Nat :=
  ((((y * 12 + (mo - 1)) * 31 + (d - 1)) * 24 + h) * 60 + mi) * 60 + s

/-- datetime.strptime(s, "%Y-%m-%d %H:%M:%S %Z"): a four-digit year,
two-digit month, day, hour, minute and second with the literal
separators, then a timezone name (the code only ever writes "UTC"; GMT
is the other name a naive strptime accepts), with the field ranges
strptime enforces. Returns the encoded instant, or none on a mismatch
(strptime raises ValueError). -/
def strptime_utc (str : String) : Option Nat := do
  let cs := str.data
  let (y, cs) ← readFixed 4 0 cs
  let cs ← expectChar '-' cs
  let (mo, cs) ← readFixed 2 0 cs
  let cs ← expectChar '-' cs
  let (d, cs) ← readFixed 2 0 cs
  let cs ← expectChar ' ' cs
  let (h, cs) ← readFixed 2 0 cs
  let cs ← expectChar ':' cs
  let (mi, cs) ← readFixed 2 0 cs
  let cs ← expectChar ':' cs
  let (s, cs) ← readFixed 2 0 cs
  let cs ← expectChar ' ' cs
  if (cs = "UTC".data ∨ cs = "GMT".data) ∧
      1 ≤ mo ∧ mo ≤ 12 ∧ 1 ≤ d ∧ d ≤ 31 ∧ h ≤ 23 ∧ mi ≤ 59 ∧ s ≤ 61 then
    some (encodeDT y mo d h mi s)
  else none

/-- parse_utc from src/login.py lines 130-136, applied to the JSON value
found under "expires": strptime demands a str argument (TypeError
otherwise) and raises ValueError when the string does not match the
format; on success the code attaches tzinfo=utc, which the encoding
absorbs. -/
def parse_utc (v : JVal) : Except PyExc Nat :=
  match v with
  | .jstr s =>
    match strptime_utc s with
    | some t => .ok t
    | none => .error (.valueError s)
  | _ => .error (.typeError "strptime() argument must be str")

/-- Python subscription v[k] with a string key: a dict lookup raising
KeyError when the key is missing, and TypeError when v is not a dict. -/
def pyGetItem (v : JVal) (k : String) : Except PyExc JVal :=
  match v with
  | .jobj fields =>
    match fields.lookup k with
    | some x => .ok x
    | none => .error (.keyError k)
  | _ => .error (.typeError k)

/-- The credential cookie names, in the order login iterates them. -/
def cred_names : List String := ["SESSDATA", "bili_jct", "DedeUserID"]

/-- The all(...) generator of src/login.py lines 148-152 over the parsed
JSON: for each name, look up temp_info[name]["expires"]; a null expiry
is filtered out; otherwise parse it and compare with now, stopping at
the first false (all short-circuits, and the generator is lazy, so later
lookups are then never evaluated). Any lookup or parse failure
propagates as the corresponding Python exception. -/
def check_all_ok (info : JVal) (now : Nat) : List String → Except PyExc Bool
  | [] => .ok true
  | n :: rest => do
    let item ← pyGetItem info n
    let exp ← pyGetItem item "expires"
    match exp with
    | .jnull => check_all_ok info now rest
    | v => do
      let t ← parse_utc v
      if now < t then check_all_ok info now rest else .ok false

/-- Python truthiness of a parsed JSON value, as evaluated by the
"if temp_info:" guard in login. -/
def jTruthy : JVal → Bool
  | .jnull => false
  | .jbool b => b
  | .jnum n => decide (n ≠ 0)
  | .jstr s => decide (s ≠ "")
  | .jarr elems => !elems.isEmpty
  | .jobj fields => !fields.isEmpty

/-- The environment of one login call: the file system (with the JSON
decoder), the current UTC instant, the poll timeout, and the QR sessions
the generate endpoint would grant, in order. -/
structure LoginEnv where
  fs : FileSys
  now : Nat
  timeout : Nat
  attempts : List QRAttempt

/-- How login ends when it does not raise: with the cached credentials
(returned as parsed), with a fresh QR login under the given key, aborted
by exit(1) on a non-timeout exception in the QR loop, or out of scripted
sessions. -/
inductive LoginOutcome where
  | cachedLogin (info : JVal)
  | freshLogin (key : String)
  | loginAborted (e : PyExc)
  | scriptExhausted

/-- The fresh QR-login flow of login: the while-True driver loop,
followed (on success) by cookie extraction and write-back, which the
outcome summarizes by the successful session key. -/
def run_qr_flow (env : LoginEnv) : LoginOutcome :=
  match (qr_driver env.timeout env.attempts).1 with
  | .success k => .freshLogin k
  | .aborted e => .loginAborted e
  | .outOfScript => .scriptExhausted

/-- login from src/login.py lines 139-188: parse the credential file
(its errors propagate — only FileNotFoundError is absorbed as None);
when the parsed value is truthy, evaluate the expiry check inside
try/except Exception — ok true uses the cache, while ok false and every
raised exception fall through to the QR flow; a missing or falsy file
also goes to the QR flow. -/
def login (env : LoginEnv) (path : String) : Except PyExc LoginOutcome :=
  match parse_login_info env.fs path with
  | .error e => .error e
  | .ok none => .ok (run_qr_flow env)
  | .ok (some temp_info) =>
    if jTruthy temp_info then
      match check_all_ok temp_info env.now cred_names with
      | .ok true => .ok (.cachedLogin temp_info)
      | .ok false => .ok (run_qr_flow env)
      | .error _ => .ok (run_qr_flow env)
    else .ok (run_qr_flow env)

/-- One representation entry of the dash manifest: its baseUrl, when the
key is present (dict.get returns None on a missing key). -/
structure DashRep where
  baseUrl : Option String
  deriving DecidableEq, Repr

/-- The dash section of the embedded playinfo manifest: the video and
audio representation lists, each key possibly absent. -/
structure DashInfo where
  video : Option (List DashRep)
  audio : Option (List DashRep)
  deriving DecidableEq, Repr

/-- The data section of the playinfo manifest. -/
structure PlayData where
  dash : Option DashInfo
  accept_quality : Option (List Int)
  deriving DecidableEq, Repr

/-- The embedded playinfo manifest parsed from the page HTML. -/
structure Playinfo where
  data : Option PlayData
  deriving DecidableEq, Repr

/-- An empty dash dict, the default of playinfo.get("data", ...).get("dash", ...). -/
def emptyDash : DashInfo := { video := none, audio := none }

/-- playinfo.get("data", dict()).get("dash", dict()) from src/utils.py
line 191. -/
def dashOf (p : Playinfo) : DashInfo :=
  match p.data with
  | none => emptyDash
  | some pd => pd.dash.getD emptyDash

/-- dash.get("video", the one-element list holding an empty dict) from
src/utils.py line 192: the default applies only when the key is absent. -/
def videoListOf (p : Playinfo) : List DashRep :=
  ((dashOf p).video).getD [{ baseUrl := none }]

/-- dash.get("audio", the one-element list holding an empty dict) from
src/utils.py line 193. -/
def audioListOf (p : Playinfo) : List DashRep :=
  ((dashOf p).audio).getD [{ baseUrl := none }]

/-- Python list subscription lst[0]: IndexError on an (explicitly
present but) empty list, the head otherwise. -/
def pyIndex0 (l : List DashRep) : Except PyExc DashRep :=
  match l with
  | [] => .error (.indexError "list index out of range")
  | r :: _ => .ok r

/-- playinfo.get("data", dict()).get("accept_quality", the empty list)
from src/utils.py line 194. -/
def qualitiesOf (p : Playinfo) : List Int :=
  match p.data with
  | none => []
  | some pd => pd.accept_quality.getD []

/-- The fetched page HTML, summarized by what the playinfo extraction of
src/utils.py lines 186-189 finds in it: none when the regex marker
(the window.__playinfo__ assignment followed by a closing script tag)
does not occur, some (.error e) when the delimited blob is present but
json.loads raises, some (.ok p) when it parses. -/
structure PageHtml where
  playinfo : Option (Except PyExc Playinfo)

/-- Environment of one get_bv_info call: the outcome of the _safe_get of
the video page, and the outcome of the _safe_get plus .json() of the
metadata endpoint (the latter as the JSON it would yield if issued). -/
structure ResolveEnv where
  page : Except PyExc PageHtml
  infoResp : Except PyExc JVal

/-- dict.get(k, default) on a JSON value: AttributeError when the value
is not a dict (only dicts have .get). -/
def pyDictGet (v : JVal) (k : String) (dflt : JVal) : Except PyExc JVal :=
  match v with
  | .jobj fields => .ok ((fields.lookup k).getD dflt)
  | _ => .error (.attributeError k)

/-- info_resp.json().get("data", dict()).get("title", "") from
src/utils.py line 199. -/
def titleOf (j : JVal) : Except PyExc JVal := do
  let d ← pyDictGet j "data" (.jobj [])
  pyDictGet d "title" (.jstr "")

/-- The resolved-media descriptor get_bv_info returns (the two
lambda-valued entries are omitted: they only repackage these fields). -/
structure BvInfo where
  title : JVal
  video_url : Option String
  audio_url : Option String
  accept_quality : List Int

/-- get_bv_info from src/utils.py lines 165-218, over the scripted
environment. Returns its outcome together with a flag recording whether
the metadata (title) fetch was issued. The page _safe_get is wrapped in
try/except RequestException re-raised as RuntimeError ("无法获取视频页面
HTML"); a missing playinfo marker raises RuntimeError before any further
request; json.loads and list-indexing failures propagate; the title
fetch is wrapped in try/except RequestException re-raised as
RuntimeError ("无法获取视频信息"). -/
def get_bv_info (env : ResolveEnv) : Except PyExc BvInfo × Bool :=
  match env.page with
  | .error e =>
    if isRequestException e then
      (.error (.runtimeError ("无法获取视频页面 HTML: " ++ excMsg e)), false)
    else (.error e, false)
  | .ok html =>
    match html.playinfo with
    | none => (.error (.runtimeError "无法从 HTML 中提取 playinfo 数据"), false)
    | some (.error e) => (.error e, false)
    | some (.ok p) =>
      match pyIndex0 (videoListOf p) with
      | .error e => (.error e, false)
      | .ok v =>
        match pyIndex0 (audioListOf p) with
        | .error e => (.error e, false)
        | .ok a =>
          match env.infoResp with
          | .error e =>
            if isRequestException e then
              (.error (.runtimeError ("无法获取视频信息: " ++ excMsg e)), true)
            else (.error e, true)
          | .ok j =>
            match titleOf j with
            | .error e => (.error e, true)
            | .ok t =>
              (.ok { title := t, video_url := v.baseUrl, audio_url := a.baseUrl,
                     accept_quality := qualitiesOf p }, true)

/-! Concrete scripted inputs used to instantiate the theorems below. -/

/-- A file system on which every open raises FileNotFoundError. -/
def fsAbsent : FileSys := fun _ => none

/-- A file system on which every file is present but malformed: json.load
raises JSONDecodeError. -/
def fsCorrupt : FileSys :=
  fun _ => some (.error (.jsonDecodeError "Expecting value: line 1 column 1 (char 0)"))

/-- Tier 1 succeeds with a 200 page. -/
def sgOk1 : SafeGetEnv :=
  { tier1 := .ok { status := 200, body := "page-1" },
    tier2 := .error (.sslError "unused"),
    tier3 := .error (.sslError "unused") }

/-- Tier 1 fails with a TLS error, tier 2 succeeds. -/
def sgOk2 : SafeGetEnv :=
  { tier1 := .error (.sslError "tls handshake failed"),
    tier2 := .ok { status := 200, body := "page-2" },
    tier3 := .error (.sslError "unused") }

/-- Tiers 1 and 2 fail with TLS errors, tier 3 succeeds. -/
def sgOk3 : SafeGetEnv :=
  { tier1 := .error (.sslError "tls handshake failed"),
    tier2 := .error (.sslError "certificate verify failed"),
    tier3 := .ok { status := 200, body := "page-3" } }

/-- All three tiers fail. -/
def sgFail : SafeGetEnv :=
  { tier1 := .error (.sslError "tls handshake failed"),
    tier2 := .error (.maxRetryError "max retries exceeded"),
    tier3 := .error (.valueError "bad value") }

/-- Tier 1 connects and receives a 404 (raise_for_status fires), tier 2
receives a 200. -/
def sgHttp : SafeGetEnv :=
  { tier1 := .ok { status := 404, body := "not found" },
    tier2 := .ok { status := 200, body := "page-2" },
    tier3 := .error (.sslError "unused") }

/-- Tier 1 raises an exception outside the caught classes. -/
def sgOther : SafeGetEnv :=
  { tier1 := .error (.valueError "boom"),
    tier2 := .ok { status := 200, body := "page-2" },
    tier3 := .ok { status := 200, body := "page-3" } }

/-- A QR session whose first poll already finds the timeout exceeded. -/
def qrA1 : QRAttempt :=
  { key := "k1", url := "u1",
    script := [{ code := 0, status := 86101, url := "", confirmOk := true, elapsed := 200 }] }

/-- A second timed-out QR session. -/
def qrA2 : QRAttempt :=
  { key := "k2", url := "u2",
    script := [{ code := 0, status := 86101, url := "", confirmOk := true, elapsed := 999 }] }

/-- A QR session confirmed on the first poll. -/
def qrA3 : QRAttempt :=
  { key := "k3", url := "u3",
    script := [{ code := 0, status := 0, url := "confirm-url", confirmOk := true, elapsed := 10 }] }

/-- A QR session that expires: one unscanned poll, then 86038. -/
def qrExpired : QRAttempt :=
  { key := "k1", url := "u1",
    script := [{ code := 0, status := 86101, url := "", confirmOk := true, elapsed := 2 },
               { code := 0, status := 86038, url := "", confirmOk := true, elapsed := 5 }] }

/-- The scripted responses 86101, 86101, 86090, 0 of the spec scenario. -/
def pollS1 : PollStep := { code := 0, status := 86101, url := "", confirmOk := true, elapsed := 2 }

/-- Second unscanned poll of the scenario. -/
def pollS2 : PollStep := { code := 0, status := 86101, url := "", confirmOk := true, elapsed := 4 }

/-- Scanned-pending-confirmation poll of the scenario. -/
def pollS3 : PollStep := { code := 0, status := 86090, url := "", confirmOk := true, elapsed := 6 }

/-- Confirmed poll of the scenario. -/
def pollS4 : PollStep := { code := 0, status := 0, url := "confirm-url", confirmOk := true, elapsed := 8 }

/-- A poll response with a status outside the protocol. -/
def pollBad : PollStep := { code := 0, status := 12345, url := "", confirmOk := true, elapsed := 2 }

/-- The manifest of the spec scenario: one video representation V1, one
audio representation A1, accepted qualities 120, 80, 64. -/
def c8Playinfo : Playinfo :=
  { data := some { dash := some { video := some [{ baseUrl := some "V1" }],
                                  audio := some [{ baseUrl := some "A1" }] },
                   accept_quality := some [120, 80, 64] } }

/-- A resolver environment whose page carries the scenario manifest and
whose metadata endpoint answers with a title. -/
def c8Env : ResolveEnv :=
  { page := .ok { playinfo := some (.ok c8Playinfo) },
    infoResp := .ok (.jobj [("data", .jobj [("title", .jstr "Demo Video")])]) }

/-- A resolver environment whose page carries no playinfo marker; the
metadata endpoint would answer if asked. -/
def c9Env : ResolveEnv :=
  { page := .ok { playinfo := none },
    infoResp := .ok (.jobj [("data", .jobj [("title", .jstr "Demo Video")])]) }

/-- A parsed credential file whose SESSDATA entry is null: subscripting
it with "expires" raises TypeError. -/
def corruptInfo : JVal := .jobj [("SESSDATA", .jnull)]

/-- A parsed credential file whose SESSDATA expiry string is not in the
strptime format: parse_utc raises ValueError. -/
def corruptInfo2 : JVal :=
  .jobj [("SESSDATA", .jobj [("expires", .jstr "not-a-date")]),
         ("bili_jct", .jobj [("expires", .jnull)]),
         ("DedeUserID", .jobj [("expires", .jnull)])]

/-- A login environment whose credential file parses to corruptInfo and
whose QR flow would succeed with session k3. -/
def c10Env : LoginEnv :=
  { fs := fun _ => some (.ok corruptInfo), now := 0, timeout := 180, attempts := [qrA3] }

/-- A login environment whose credential file parses to corruptInfo2. -/
def c10Env2 : LoginEnv :=
  { fs := fun _ => some (.ok corruptInfo2), now := 0, timeout := 180, attempts := [qrA3] }

/-! Theorems. -/

/-- A poll script that reaches 86038 before any 0 makes poll_login
return False (signal restart) rather than raise. -/
theorem poll_of_reachesExpiry {timeout : Nat} :
    ∀ {l : List PollStep}, reachesExpiry timeout l →
      (poll_login timeout l).result = .ok false := by
  intro l
  induction l with
  | nil => intro h; cases h
  | cons s rest ih =>
    intro h
    obtain ⟨hc, h2⟩ := h
    rcases h2 with h38 | ⟨hst, he, hr⟩
    · simp [poll_login, hc, h38]
    · rcases hst with h101 | h090
      · simp [poll_login, hc, h101, Nat.not_le.mpr he, ih hr]
      · simp [poll_login, hc, h090, Nat.not_le.mpr he, ih hr]

/-- Every key in the driver trace comes from the attempt list. -/
theorem qr_driver_trace_keys {timeout : Nat} :
    ∀ (attempts : List QRAttempt) (k : String) (r : PollResult),
      (k, r) ∈ (qr_driver timeout attempts).2 → k ∈ attempts.map QRAttempt.key := by
  intro attempts
  induction attempts with
  | nil => intro k r h; simp [qr_driver] at h
  | cons a rest ih =>
    intro k r h
    cases hpr : (poll_login timeout a.script).result with
    | ok b =>
      cases b with
      | true =>
        simp [qr_driver, hpr] at h
        simp [h.1]
      | false =>
        simp only [qr_driver, hpr] at h
        rcases List.mem_cons.mp h with heq | htl
        · simp [(Prod.mk.injEq _ _ _ _).mp heq |>.1]
        · exact List.mem_cons_of_mem _ (ih k r htl)
    | err e =>
      by_cases ht : isTimeoutErr e = true
      · simp only [qr_driver, hpr, ht, if_true] at h
        rcases List.mem_cons.mp h with heq | htl
        · simp [(Prod.mk.injEq _ _ _ _).mp heq |>.1]
        · exact List.mem_cons_of_mem _ (ih k r htl)
      · simp [qr_driver, hpr, ht] at h
        simp [h.1]
    | outOfScript =>
      simp [qr_driver, hpr] at h
      simp [h.1]

/-- C1 counterexample: with tier 1 connecting and receiving a 404 (so
raise_for_status fires) and tier 2 receiving a 200, _safe_get does NOT
propagate the HTTPError from tier 1 — it falls through and returns the
tier-2 response, because HTTPError is a RequestException and so is
caught by the tier-1 except clause. -/
theorem c1_counterexample :
    sgHttp.tier1 = .ok { status := 404, body := "not found" } ∧
    tierTry sgHttp.tier1 = .error (.httpError "HTTP Error 404") ∧
    _safe_get sgHttp = (.ok { status := 200, body := "page-2" }, [1, 2]) :=
  ⟨rfl, rfl, rfl⟩

/-- C1 (amended): an HTTP error status in tier 1 does trigger fallback
(tier 2 is attempted), since HTTPError is a subclass of
RequestException; only an exception outside the SSLError, MaxRetryError
and RequestException classes propagates immediately from tier 1 with no
further tier attempted. -/
theorem c1_http_error_falls_through (env : SafeGetEnv) :
    (∀ r, env.tier1 = .ok r → 400 ≤ r.status → r.status < 600 →
      ((_safe_get env).2).take 2 = [1, 2]) ∧
    (∀ e, tierTry env.tier1 = .error e → tier12Catches e = false →
      _safe_get env = (.error e, [1])) := by
  constructor
  · intro r hr h4 h6
    have ht : tierTry env.tier1 =
        .error (.httpError ("HTTP Error " ++ toString r.status)) := by
      simp [tierTry, hr, raise_for_status, h4, h6]
    have hcat : tier12Catches (.httpError ("HTTP Error " ++ toString r.status)) = true := rfl
    simp only [_safe_get, ht, hcat, if_true]
    cases h2 : tierTry env.tier2 with
    | ok r2 => simp
    | error e2 =>
      by_cases hc : tier12Catches e2 = true
      · simp only [hc, if_true]
        cases h3 : tierTry env.tier3 <;> simp
      · simp [hc]
  · intro e he hc
    simp [_safe_get, he, hc]

/-- C1 amended witness: at sgHttp tier 2 is attempted after the tier-1
404; at sgOther the uncaught ValueError propagates from tier 1. -/
theorem c1_witness :
    ((_safe_get sgHttp).2).take 2 = [1, 2] ∧
    _safe_get sgOther = (.error (.valueError "boom"), [1]) :=
  ⟨(c1_http_error_falls_through sgHttp).1 _ rfl (by decide) (by decide),
   (c1_http_error_falls_through sgOther).2 _ rfl rfl⟩

/-- C2: the three tiers are attempted in strict order, the first
successful (non-error-status) response is returned without attempting
later tiers, and when all three fail the single raised RuntimeError
message contains all three underlying failure descriptions, each behind
its tier label. -/
theorem c2_resilient_fetch (env : SafeGetEnv) :
    (∀ r, tierTry env.tier1 = .ok r → _safe_get env = (.ok r, [1])) ∧
    (∀ e1 r, tierTry env.tier1 = .error e1 → tier12Catches e1 = true →
      tierTry env.tier2 = .ok r → _safe_get env = (.ok r, [1, 2])) ∧
    (∀ e1 e2 r, tierTry env.tier1 = .error e1 → tier12Catches e1 = true →
      tierTry env.tier2 = .error e2 → tier12Catches e2 = true →
      tierTry env.tier3 = .ok r → _safe_get env = (.ok r, [1, 2, 3])) ∧
    (∀ e1 e2 e3, tierTry env.tier1 = .error e1 → tier12Catches e1 = true →
      tierTry env.tier2 = .error e2 → tier12Catches e2 = true →
      tierTry env.tier3 = .error e3 →
      ∃ m, _safe_get env = (.error (.runtimeError m), [1, 2, 3]) ∧
        IsSubstr ("1) 普通 session.get → " ++ excMsg e1) m ∧
        IsSubstr ("2) session.get verify=False → " ++ excMsg e2) m ∧
        IsSubstr ("3) plain requests.get → " ++ excMsg e3) m) := by
  refine ⟨?_, ?_, ?_, ?_⟩
  · intro r h1; simp [_safe_get, h1]
  · intro e1 r h1 hc1 h2; simp [_safe_get, h1, hc1, h2]
  · intro e1 e2 r h1 hc1 h2 hc2 h3; simp [_safe_get, h1, hc1, h2, hc2, h3]
  · intro e1 e2 e3 h1 hc1 h2 hc2 h3
    refine ⟨aggregateMsg e1 e2 e3, by simp [_safe_get, h1, hc1, h2, hc2, h3], ?_, ?_, ?_⟩
    · refine ⟨"三次尝试均失败:\n",
        "\n2) session.get verify=False → " ++ excMsg e2 ++
          "\n3) plain requests.get → " ++ excMsg e3, ?_⟩
      unfold aggregateMsg
      rw [show ("三次尝试均失败:\n1) 普通 session.get → " : String) =
          "三次尝试均失败:\n" ++ "1) 普通 session.get → " by decide]
      simp only [String.append_assoc]
    · refine ⟨"三次尝试均失败:\n1) 普通 session.get → " ++ excMsg e1 ++ "\n",
        "\n3) plain requests.get → " ++ excMsg e3, ?_⟩
      unfold aggregateMsg
      rw [show ("\n2) session.get verify=False → " : String) =
          "\n" ++ "2) session.get verify=False → " by decide]
      simp only [String.append_assoc]
    · refine ⟨"三次尝试均失败:\n1) 普通 session.get → " ++ excMsg e1 ++
          "\n2) session.get verify=False → " ++ excMsg e2 ++ "\n", "", ?_⟩
      unfold aggregateMsg
      rw [show ("\n3) plain requests.get → " : String) =
          "\n" ++ "3) plain requests.get → " by decide]
      simp only [String.append_assoc, String.append_empty]

/-- C2 witness: the four cases at concrete environments — success at
tier 1, at tier 2, at tier 3, and the aggregate error with all three
tier-labeled messages. -/
theorem c2_witness :
    _safe_get sgOk1 = (.ok { status := 200, body := "page-1" }, [1]) ∧
    _safe_get sgOk2 = (.ok { status := 200, body := "page-2" }, [1, 2]) ∧
    _safe_get sgOk3 = (.ok { status := 200, body := "page-3" }, [1, 2, 3]) ∧
    (∃ m, _safe_get sgFail = (.error (.runtimeError m), [1, 2, 3]) ∧
      IsSubstr ("1) 普通 session.get → " ++ excMsg (.sslError "tls handshake failed")) m ∧
      IsSubstr ("2) session.get verify=False → " ++ excMsg (.maxRetryError "max retries exceeded")) m ∧
      IsSubstr ("3) plain requests.get → " ++ excMsg (.valueError "bad value")) m) :=
  ⟨(c2_resilient_fetch sgOk1).1 _ rfl,
   (c2_resilient_fetch sgOk2).2.1 _ _ rfl rfl rfl,
   (c2_resilient_fetch sgOk3).2.2.1 _ _ _ rfl rfl rfl rfl rfl,
   (c2_resilient_fetch sgFail).2.2.2 _ _ _ rfl rfl rfl rfl rfl⟩

/-- C3: loading the credential file returns absent (None) and never
raises when the file does not exist, and propagates the decode error of
a present-but-malformed file (the CredentialFileError of the spec)
instead of treating it as absent. -/
theorem c3_parse_login_info (fs : FileSys) (path : String) :
    (fs path = none → parse_login_info fs path = .ok none) ∧
    (∀ e, fs path = some (.error e) → parse_login_info fs path = .error e) := by
  constructor
  · intro h; simp [parse_login_info, h]
  · intro e h; simp [parse_login_info, h]

/-- C3 witness: the missing file and the malformed file at a concrete
path. -/
theorem c3_witness :
    parse_login_info fsAbsent "data/login_info.json" = .ok none ∧
    parse_login_info fsCorrupt "data/login_info.json" =
      .error (.jsonDecodeError "Expecting value: line 1 column 1 (char 0)") :=
  ⟨(c3_parse_login_info fsAbsent "data/login_info.json").1 rfl,
   (c3_parse_login_info fsCorrupt "data/login_info.json").2 _ rfl⟩

/-- C4: the usability check is true exactly when every credential field
with a non-absent expiry has its expiry strictly after now; fields with
an absent expiry never make the set unusable. -/
theorem c4_usability (cs : CredentialSet) (now : Nat) :
    isUsable cs now = true ↔
      ∀ o ∈ credExpiries cs, ∀ t, o = some t → now < t := by
  unfold isUsable
  rw [List.all_eq_true]
  constructor
  · intro h o ho t ht
    have h2 := h o ho
    subst ht
    simpa using h2
  · intro h o ho
    cases o with
    | none => simp
    | some t => simpa using h (some t) ho t rfl

/-- C5: on the scripted status sequence 86101, 86101, 86090, 0 (with
every non-terminal poll inside the timeout window and the confirmation
fetch succeeding), poll_login traverses AWAITING_SCAN, AWAITING_SCAN,
SCANNED_PENDING_CONFIRM, CONFIRMED, fetches the confirmation URL, and
terminates with success; and any status outside 86101, 86090, 86038, 0
raises the protocol RuntimeError. -/
theorem c5_state_machine (timeout : Nat) (s1 s2 s3 s4 : PollStep)
    (hc1 : s1.code = 0) (hs1 : s1.status = 86101) (he1 : s1.elapsed < timeout)
    (hc2 : s2.code = 0) (hs2 : s2.status = 86101) (he2 : s2.elapsed < timeout)
    (hc3 : s3.code = 0) (hs3 : s3.status = 86090) (he3 : s3.elapsed < timeout)
    (hc4 : s4.code = 0) (hs4 : s4.status = 0) (hcf : s4.confirmOk = true) :
    poll_login timeout [s1, s2, s3, s4] =
      { result := .ok true,
        states := [.AWAITING_SCAN, .AWAITING_SCAN, .SCANNED_PENDING_CONFIRM, .CONFIRMED],
        fetched := [s4.url] } ∧
    (∀ s rest, s.code = 0 → s.status ≠ 86101 → s.status ≠ 86090 →
      s.status ≠ 86038 → s.status ≠ 0 →
      (poll_login timeout (s :: rest)).result = .err (.runtimeError "未知扫码状态")) := by
  constructor
  · simp [poll_login, hc1, hs1, Nat.not_le.mpr he1, hc2, hs2, Nat.not_le.mpr he2,
      hc3, hs3, Nat.not_le.mpr he3, hc4, hs4, hcf]
  · intro s rest hc h101 h090 h038 h0
    simp [poll_login, hc, h101, h090, h038, h0]

/-- C5 witness: the scenario at concrete steps, and the protocol error
at status 12345. -/
theorem c5_witness :
    poll_login 180 [pollS1, pollS2, pollS3, pollS4] =
      { result := .ok true,
        states := [.AWAITING_SCAN, .AWAITING_SCAN, .SCANNED_PENDING_CONFIRM, .CONFIRMED],
        fetched := ["confirm-url"] } ∧
    (poll_login 180 [pollBad]).result = .err (.runtimeError "未知扫码状态") :=
  ⟨(c5_state_machine 180 pollS1 pollS2 pollS3 pollS4
      rfl rfl (by decide) rfl rfl (by decide) rfl rfl (by decide) rfl rfl rfl).1,
   (c5_state_machine 180 pollS1 pollS2 pollS3 pollS4
      rfl rfl (by decide) rfl rfl (by decide) rfl rfl (by decide) rfl rfl rfl).2
     pollBad [] rfl (by decide) (by decide) (by decide) (by decide)⟩

/-- C6: on a poll script that reaches 86038 (expired) before any 0, the
machine returns the restart signal (no exception), the driver then moves
on to the next granted QR session, and the expired key never appears
among the keys polled afterwards. -/
theorem c6_expired_restarts_fresh (timeout : Nat) (a : QRAttempt) (rest : List QRAttempt)
    (hexp : reachesExpiry timeout a.script)
    (hfresh : a.key ∉ rest.map QRAttempt.key) :
    (poll_login timeout a.script).result = .ok false ∧
    qr_driver timeout (a :: rest) =
      ((qr_driver timeout rest).1, (a.key, .ok false) :: (qr_driver timeout rest).2) ∧
    (∀ k r, (k, r) ∈ (qr_driver timeout rest).2 → k ≠ a.key) := by
  have h1 := poll_of_reachesExpiry hexp
  refine ⟨h1, by simp [qr_driver, h1], ?_⟩
  intro k r hkr hk
  exact hfresh (hk ▸ qr_driver_trace_keys rest k r hkr)

/-- C6 witness: the expired session k1 followed by the fresh session k3,
which is the one polled next. -/
theorem c6_witness :
    (poll_login 180 qrExpired.script).result = .ok false ∧
    qr_driver 180 [qrExpired, qrA3] =
      ((qr_driver 180 [qrA3]).1, ("k1", .ok false) :: (qr_driver 180 [qrA3]).2) ∧
    (∀ k r, (k, r) ∈ (qr_driver 180 [qrA3]).2 → k ≠ "k1") :=
  c6_expired_restarts_fresh 180 qrExpired [qrA3]
    ⟨rfl, Or.inr ⟨Or.inl rfl, by decide, rfl, Or.inl rfl⟩⟩ (by decide)

/-- C7 counterexample: after the first timeout the driver restarts, and
after the second timeout it restarts again instead of giving up — the
third session is polled and login succeeds, so the driver does not
surface the failure after exactly one automatic retry. -/
theorem c7_counterexample :
    qr_driver 180 [qrA1, qrA2, qrA3] =
      (.success "k3",
        [("k1", .err (.timeoutError "扫码登录超时")),
         ("k2", .err (.timeoutError "扫码登录超时")),
         ("k3", .ok true)]) := rfl

/-- C7 (amended): whenever a poll run ends in LoginTimeoutError, the
driver requests a fresh QR session and continues with the remaining
flow, whatever came before — timeouts are retried indefinitely and never
surfaced to the caller. -/
theorem c7_timeout_retry_unbounded (timeout : Nat) (a : QRAttempt)
    (rest : List QRAttempt) (e : PyExc)
    (hp : (poll_login timeout a.script).result = .err e)
    (ht : isTimeoutErr e = true) :
    qr_driver timeout (a :: rest) =
      ((qr_driver timeout rest).1, (a.key, .err e) :: (qr_driver timeout rest).2) := by
  simp [qr_driver, hp, ht]

/-- C7 amended witness: a timed-out session followed by a confirming
one. -/
theorem c7_witness :
    qr_driver 180 [qrA1, qrA3] =
      ((qr_driver 180 [qrA3]).1,
        ("k1", .err (.timeoutError "扫码登录超时")) :: (qr_driver 180 [qrA3]).2) :=
  c7_timeout_retry_unbounded 180 qrA1 [qrA3] (.timeoutError "扫码登录超时") rfl rfl

/-- C8: on a page carrying the scenario manifest (one video entry V1,
one audio entry A1, qualities 120, 80, 64) and a successful title fetch,
get_bv_info returns video_url V1, audio_url A1 and accept_quality
120, 80, 64; and in general the selected streams are always the baseUrl
of index 0 of the video list and of index 0 of the audio list, with no
quality selection. -/
theorem c8_resolver (env : ResolveEnv) :
    (∀ j t, env.page = .ok { playinfo := some (.ok c8Playinfo) } →
      env.infoResp = .ok j → titleOf j = .ok t →
      get_bv_info env =
        (.ok { title := t, video_url := some "V1", audio_url := some "A1",
               accept_quality := [120, 80, 64] }, true)) ∧
    (∀ p v vRest a aRest j t, env.page = .ok { playinfo := some (.ok p) } →
      videoListOf p = v :: vRest → audioListOf p = a :: aRest →
      env.infoResp = .ok j → titleOf j = .ok t →
      get_bv_info env =
        (.ok { title := t, video_url := v.baseUrl, audio_url := a.baseUrl,
               accept_quality := qualitiesOf p }, true)) := by
  constructor
  · intro j t hp hi ht
    simp [get_bv_info, hp, hi, ht, pyIndex0, videoListOf, audioListOf, dashOf,
      c8Playinfo, qualitiesOf]
  · intro p v vRest a aRest j t hp hv ha hi ht
    simp [get_bv_info, hp, hv, ha, hi, ht, pyIndex0]

/-- C8 witness: the scenario at the concrete environment c8Env. -/
theorem c8_witness :
    get_bv_info c8Env =
      (.ok { title := .jstr "Demo Video", video_url := some "V1",
             audio_url := some "A1", accept_quality := [120, 80, 64] }, true) :=
  (c8_resolver c8Env).1 _ _ rfl rfl rfl

/-- C9: when the fetched page body carries no playinfo marker,
get_bv_info fails with the manifest-not-found RuntimeError and the
metadata (title) fetch is never issued. -/
theorem c9_manifest_missing (env : ResolveEnv)
    (h : env.page = .ok { playinfo := none }) :
    get_bv_info env = (.error (.runtimeError "无法从 HTML 中提取 playinfo 数据"), false) := by
  simp [get_bv_info, h]

/-- C9 witness: at c9Env, whose metadata endpoint would have answered,
resolution fails with the manifest error and the flag stays false. -/
theorem c9_witness :
    get_bv_info c9Env = (.error (.runtimeError "无法从 HTML 中提取 playinfo 数据"), false) :=
  c9_manifest_missing c9Env rfl

/-- C10: when the credential file parses as JSON but the usability
evaluation raises any exception, login swallows the exception and falls
through to the fresh QR-login flow; no error is surfaced to the
caller. -/
theorem c10_corrupt_cache_swallowed (env : LoginEnv) (path : String)
    (temp_info : JVal) (e : PyExc)
    (hp : parse_login_info env.fs path = .ok (some temp_info))
    (hc : check_all_ok temp_info env.now cred_names = .error e) :
    login env path = .ok (run_qr_flow env) := by
  simp only [login, hp]
  cases hT : jTruthy temp_info <;> simp [hT, hc]

/-- C10 witness: a null SESSDATA entry (TypeError on subscription) and a
malformed expiry string (ValueError from strptime) both fall through to
the QR flow, which here logs in with the fresh session k3. -/
theorem c10_witness :
    (login c10Env "data/login_info.json" = .ok (run_qr_flow c10Env) ∧
      run_qr_flow c10Env = .freshLogin "k3") ∧
    (login c10Env2 "data/login_info.json" = .ok (run_qr_flow c10Env2) ∧
      run_qr_flow c10Env2 = .freshLogin "k3") :=
  ⟨⟨c10_corrupt_cache_swallowed c10Env "data/login_info.json" corruptInfo
      (.typeError "expires") rfl rfl, rfl⟩,
   ⟨c10_corrupt_cache_swallowed c10Env2 "data/login_info.json" corruptInfo2
      (.valueError "not-a-date") rfl rfl, rfl⟩⟩

end BiliDown
